import Mathlib

set_option maxHeartbeats 1000000

/-
Verification development for the consent-management system
(ingestion worker `ingestion-function/main.py` and query service
`query-service/app.py`), shallowly embedded in Lean 4.

Modelling conventions:
* Python strings are Lean `String`s; the Python string primitives used by the
  code (`str.lower`, `str.strip`, `str.split`, `str.replace`, `in`,
  `endswith`) are re-implemented below on `List Char` in their ASCII scope
  (all data handled by this repository is ASCII).
* Firestore collections are association lists `List (String × α)` keyed by
  document id; `document(k).set(v)` is the upsert `fsSet`, `where`-queries a
  filter / first-match over the stream, `reference.update` a keyed map.
* The SHA-256 digest `hashlib.sha256(p).hexdigest()` is modelled by the
  injective tagging function `hash_password` (collision-freedom of the digest
  is idealised; the control flow around the hash is what is verified).
* External services (OCR text, the generative model) are oracles passed as
  arguments: the OCR full text is an input string, a model outcome is an
  `Option` (`none` = the call raised).  The constant English prompt wrappers
  around the dynamic parts are omitted as they carry no data flow.
* Wall-clock instants are `Nat` (seconds); `timedelta(hours=8)` is
  `eightHours`.
-/

namespace ConsentMgmt

/-! ### Python string primitives (ASCII scope) -/

/-- Python `\s` / `str.strip` whitespace set (ASCII part). -/
def isSpaceChar (c : Char) : Bool :=
  c = ' ' || c = '\t' || c = '\n' || c = '\r' || c = '\x0b' || c = '\x0c'

/-- Python regex `\w` word character (ASCII part): alphanumeric or underscore. -/
def isWordChar (c : Char) : Bool :=
  c.isAlphanum || c = '_'

/-- ASCII lowercasing of one character, as `str.lower` does per character. -/
def lowerChar (c : Char) : Char :=
  if 'A' ≤ c ∧ c ≤ 'Z' then Char.ofNat (c.toNat + 32) else c

/-- Python `str.lower` (ASCII scope). -/
def pyLower (s : String) : String := ⟨s.data.map lowerChar⟩

/-- Python `str.strip()` with no arguments: delete leading and trailing whitespace. -/
def pyStrip (s : String) : String :=
  ⟨((s.data.dropWhile isSpaceChar).reverse.dropWhile isSpaceChar).reverse⟩

/-- Helper for `pySplitWs`: accumulate the current word (reversed) and split on
whitespace runs. -/
def splitWsAux : List Char → List Char → List (List Char)
  | [], acc => if acc.isEmpty then [] else [acc.reverse]
  | c :: rest, acc =>
    if isSpaceChar c then
      if acc.isEmpty then splitWsAux rest [] else acc.reverse :: splitWsAux rest []
    else splitWsAux rest (c :: acc)

/-- Python `str.split()` with no arguments: split on whitespace runs, dropping
empty pieces. -/
def pySplitWs (s : String) : List String := (splitWsAux s.data []).map String.mk

/-- Does `pat` occur at the head of `l`?  (List equality on a leading segment.) -/
def startsWithList : List Char → List Char → Bool
  | [], _ => true
  | _ :: _, [] => false
  | p :: ps, c :: cs => p == c && startsWithList ps cs

/-- Does `pat` occur anywhere inside `l`?  Python `pat in s`. -/
def hasSub (pat : List Char) : List Char → Bool
  | [] => pat.isEmpty
  | c :: rest => startsWithList pat (c :: rest) || hasSub pat rest

/-- Python substring test `pat in s`. -/
def substrOf (pat s : String) : Bool := hasSub pat.data s.data

/-- Does `l` end with `pat`?  Python `str.endswith`. -/
def endsWithList (pat l : List Char) : Bool := startsWithList pat.reverse l.reverse

/-- The ingestion trigger gate: `file_name.lower().endswith('.pdf')`. -/
def isPdfName (fileName : String) : Bool := endsWithList ".pdf".data (pyLower fileName).data

/-- Python `str.replace(pat, rep)` on character lists: replace every
non-overlapping occurrence left to right (only used with a non-empty
pattern, as in the source).  Structural recursion on a fuel that bounds the
number of consumed characters, so that the definition evaluates in the
kernel; every step consumes at least one character, so `l.length` fuel is
always enough. -/
def replaceFuel (pat rep : List Char) : Nat → List Char → List Char
  | 0, l => l
  | _ + 1, [] => []
  | fuel + 1, c :: rest =>
    if pat ≠ [] ∧ startsWithList pat (c :: rest) then
      rep ++ replaceFuel pat rep fuel (rest.drop (pat.length - 1))
    else
      c :: replaceFuel pat rep fuel rest

/-- Python `str.replace`. -/
def pyReplace (s pat rep : String) : String :=
  ⟨replaceFuel pat.data rep.data s.data.length s.data⟩

/-- Derivation `doc_id = file_name.replace(".pdf", "")` (ingestion step 4). -/
def docId (fileName : String) : String := pyReplace fileName ".pdf" ""

/-! ### Shared credential / time model -/

/-- Model of `hashlib.sha256(password.encode()).hexdigest()`, an injective
tag (the digest is idealised as collision-free; it is always non-empty, as a
real hex digest is). -/
def hash_password (password : String) : String := "sha256-" ++ password

/-- Lifetime `timedelta(hours=8)` in seconds. -/
def eightHours : Nat := 8 * 60 * 60

/-! ### Data model -/

/-- The parsed five-key payload the model is instructed to return (ingestion
prompt): JSON text is modelled structurally; `entities` is the ordered
key/value mapping of the `"entities"` object. -/
structure Analysis where
  summary : String
  entities : List (String × String)
  consented_items : List String
  declined_items : List String
  patient_id : String
deriving DecidableEq

/-- A document of the `consents` collection (`ai_analysis_json` modelled as the
parsed payload, `processed_timestamp` elided). -/
structure ConsentRecord where
  filename : String
  ai_analysis : Analysis
  full_text : String
deriving DecidableEq

/-- A document of the `entity_index` collection (`processed_timestamp` elided). -/
structure EntityIndexEntry where
  document_id : String
  entities : List (String × String)
  search_terms : List String
  patient_name : String
  patient_id : String
  patient_email : String
  consented_items : List String
  declined_items : List String
  summary : String
deriving DecidableEq

/-- A document of the `patients` collection.  A missing `password_hash` /
`date_of_birth` field is modelled as `""` (the code only ever tests the field
for falsiness or compares it to a non-empty digest, so the two are
indistinguishable); `default_password` is present only on
ingestion-provisioned accounts. -/
structure PatientAccount where
  email : String
  password_hash : String
  patient_name : String
  date_of_birth : String
  default_password : Option String
deriving DecidableEq

/-- One entry of the in-memory `active_sessions` table. -/
structure SessionData where
  email : String
  patient_name : String
  expires : Nat
deriving DecidableEq

/-! ### Firestore primitives -/

/-- Firestore `collection.document(k).set(v)`: upsert by key (stream order of the
collection is Firestore-internal and abstracted). -/
def fsSet {α : Type} (coll : List (String × α)) (k : String) (v : α) :
    List (String × α) :=
  coll.filter (fun p => p.1 != k) ++ [(k, v)]

/-- Number of documents stored under key `k`. -/
def countKey {α : Type} (coll : List (String × α)) (k : String) : Nat :=
  (coll.filter (fun p => p.1 == k)).length

/-! ### Ingestion worker (`ingestion-function/main.py`) -/

/-- The fixed fallback payload substituted when the model call raises
(`except` branch of step 3). -/
def fallbackAnalysis : Analysis where
  summary := "Consent form processed - AI analysis failed"
  entities :=
    [("patient_name", "N/A"), ("patient_email", "N/A"), ("date_of_birth", "N/A"),
     ("doctor_name", "N/A"), ("procedure", "N/A"), ("date", "N/A")]
  consented_items := ["Analysis pending"]
  declined_items := []
  patient_id := "unknown"

/-- The `for entity_type, entity_value in entities.items()` loop of
`_store_enhanced_analysis`: collect the entity mapping and, per kept entity,
append the two search terms `"type:value"` and `value.lower()`. -/
def buildEntityData : List (String × String) → List (String × String) × List String
  | [] => ([], [])
  | (k, v) :: rest =>
    let (ed, ts) := buildEntityData rest
    if v != "" && v != "N/A" then ((k, v) :: ed, (k ++ ":" ++ v) :: pyLower v :: ts)
    else (ed, ts)

/-- Model of `_store_enhanced_analysis`: build the `entity_index` document for
`document_id` from the parsed analysis (the write itself is done by the
pipeline with `fsSet`). -/
def mk_enhanced_analysis (document_id : String) (analysis : Analysis) : EntityIndexEntry :=
  let built := buildEntityData analysis.entities
  let patient_email := (analysis.entities.lookup "patient_email").getD "N/A"
  { document_id := document_id
    entities := built.1
    search_terms := built.2
    patient_name := (analysis.entities.lookup "patient_name").getD "N/A"
    patient_id := analysis.patient_id
    patient_email := if patient_email != "N/A" then pyLower patient_email else "N/A"
    consented_items := analysis.consented_items
    declined_items := analysis.declined_items
    summary := analysis.summary }

/-- Model of `_create_patient_account`: implicit account upsert from a consent form.
`newId` stands for the fresh `secrets.token_urlsafe(16)` primary key.
`Except.error` models the `IndexError` raised by `patient_name.split()[0]`
when the name is whitespace-only (re-raised by the function). -/
def create_patient_account (patients : List (String × PatientAccount))
    (newId patient_email patient_name : String) :
    Except String (List (String × PatientAccount)) :=
  let firstTok : Option String :=
    if patient_name != "N/A" then (pySplitWs patient_name).head?.map pyLower
    else some "patient"
  match firstTok with
  | none => .error "IndexError"
  | some first =>
    let default_password := first ++ "123!"
    let password_hash := hash_password default_password
    match patients.find? (fun p => p.2.email == patient_email) with
    | some (k, existing) =>
      let upd : PatientAccount :=
        { existing with
          patient_name := patient_name
          email := patient_email
          password_hash :=
            if existing.password_hash = "" then password_hash else existing.password_hash
          default_password :=
            if existing.password_hash = "" then some default_password
            else existing.default_password }
      .ok (patients.map (fun p => if p.1 = k then (k, upd) else p))
    | none =>
      .ok (fsSet patients newId
        { email := patient_email
          password_hash := password_hash
          patient_name := patient_name
          date_of_birth := ""
          default_password := some default_password })

/-- Step 6 call site of `_create_patient_account`: its `try/except` swallows any
exception, leaving the `patients` collection unchanged. -/
def create_patient_account_swallow (patients : List (String × PatientAccount))
    (newId patient_email patient_name : String) : List (String × PatientAccount) :=
  match create_patient_account patients newId patient_email patient_name with
  | .ok ps => ps
  | .error _ => patients

/-- The persistent state touched by the ingestion worker. -/
structure IngestState where
  consents : List (String × ConsentRecord)
  entity_index : List (String × EntityIndexEntry)
  patients : List (String × PatientAccount)
deriving DecidableEq

/-- Observable external effects of one worker invocation. -/
structure IngestEffects where
  ocrCalled : Bool
  modelCalled : Bool
  dbWrites : Nat
  blobsDeleted : Bool
deriving DecidableEq

/-- Model of `process_consent_pdf`: one invocation of the ingestion worker.
`fullText` is the OCR oracle's concatenated output; `modelOutcome` is the
model oracle (`none` = the `generate_content` call raised, triggering the
fallback); `newAccountId` is the fresh id used if an account is created.
Database writes are modelled as succeeding (the fatal re-raise path of step 4
is a database-outage behaviour outside this model). -/
def process_consent_pdf (st : IngestState) (fileName fullText : String)
    (modelOutcome : Option Analysis) (newAccountId : String) :
    IngestState × IngestEffects :=
  if isPdfName fileName then
    let cleaned : Analysis :=
      match modelOutcome with
      | some a => a
      | none => fallbackAnalysis
    let doc_id := docId fileName
    let consents' := fsSet st.consents doc_id
      { filename := fileName, ai_analysis := cleaned, full_text := fullText }
    let entity_index' := fsSet st.entity_index doc_id (mk_enhanced_analysis doc_id cleaned)
    let patient_email := pyLower ((cleaned.entities.lookup "patient_email").getD "")
    let patient_name := (cleaned.entities.lookup "patient_name").getD "N/A"
    let accountStep :=
      if patient_email != "" && patient_email != "n/a" then
        match create_patient_account st.patients newAccountId patient_email patient_name with
        | .ok ps => (ps, 1)
        | .error _ => (st.patients, 0)
      else (st.patients, 0)
    (⟨consents', entity_index', accountStep.1⟩,
     ⟨true, true, 2 + accountStep.2, true⟩)
  else
    (st, ⟨false, false, 0, false⟩)

/-! ### Query service (`query-service/app.py`): registration, login, sessions -/

/-- Result of `POST /register`: HTTP status and the `patients` collection after
the call.  `newId` stands for the fresh `uuid.uuid4()` document key. -/
def register_patient (patients : List (String × PatientAccount)) (newId : String)
    (email password patient_name date_of_birth : String) :
    Nat × List (String × PatientAccount) :=
  let email := pyLower (pyStrip email)
  let password := pyStrip password
  let patient_name := pyStrip patient_name
  let date_of_birth := pyStrip date_of_birth
  if email = "" ∨ password = "" then (400, patients)
  else if (patients.find? (fun p => p.2.email == email)).isSome then (409, patients)
  else
    (200, fsSet patients newId
      { email := email
        password_hash := hash_password password
        patient_name := patient_name
        date_of_birth := date_of_birth
        default_password := none })

/-- Result of `POST /login`. -/
structure LoginResult where
  status : Nat
  session_token : Option String
  sessions : List (String × SessionData)
deriving DecidableEq

/-- Endpoint `POST /login` at wall-clock instant `now`; `newToken` stands for the fresh
`secrets.token_urlsafe(32)` session token. -/
def login_patient (patients : List (String × PatientAccount))
    (sessions : List (String × SessionData)) (now : Nat) (newToken : String)
    (email password : String) : LoginResult :=
  let email := pyLower (pyStrip email)
  let password := pyStrip password
  if email = "" ∨ password = "" then ⟨400, none, sessions⟩
  else
    match patients.find? (fun p => p.2.email == email) with
    | none => ⟨401, none, sessions⟩
    | some (_, acct) =>
      if acct.password_hash ≠ hash_password password then ⟨401, none, sessions⟩
      else
        ⟨200, some newToken,
         fsSet sessions newToken
           { email := email, patient_name := acct.patient_name, expires := now + eightHours }⟩

/-- Outcome of the `verify_session` decorator: either a 401 (with the session
table as the failed check leaves it) or the session-bound patient email. -/
inductive SessionCheck
  | unauthorized (sessions : List (String × SessionData))
  | ok (email : String) (sessions : List (String × SessionData))
deriving DecidableEq

/-- The `verify_session` decorator.  `header` is the raw `Authorization` header
value (`none` if the header is absent); the token is looked up verbatim.  An
expired entry is deleted by the failed check. -/
def verify_session (sessions : List (String × SessionData)) (now : Nat)
    (header : Option String) : SessionCheck :=
  match header with
  | none => .unauthorized sessions
  | some tok =>
    if tok = "" then .unauthorized sessions
    else
      match sessions.lookup tok with
      | none => .unauthorized sessions
      | some sd =>
        if now > sd.expires then .unauthorized (sessions.filter (fun p => p.1 != tok))
        else .ok sd.email sessions

/-! ### Query service: the authenticated `/query` path -/

/-- The per-document dictionary `handle_query`/`search_patient_documents` build
from an `entity_index` document. -/
structure DocView where
  id : String
  filename : String
  summary : String
  consented_items : List String
  declined_items : List String
  patient_name : String
  entities : List (String × String)
deriving DecidableEq

/-- Projection of one `entity_index` document (`filename` is
`doc_data.get('document_id', 'unknown')`). -/
def docView (id : String) (e : EntityIndexEntry) : DocView :=
  { id := id
    filename := e.document_id
    summary := e.summary
    consented_items := e.consented_items
    declined_items := e.declined_items
    patient_name := e.patient_name
    entities := e.entities }

/-- Model of `search_patient_documents`: every `entity_index` document whose
`patient_email` equals the session email, exact match only. -/
def search_patient_documents (entity_index : List (String × EntityIndexEntry))
    (patient_email : String) : List DocView :=
  (entity_index.filter (fun p => p.2.patient_email == patient_email)).map
    (fun p => docView p.1 p.2)

/-- The documents the model context is assembled from: `relevant_docs[:3]`. -/
def contextDocs (docs : List DocView) : List DocView := docs.take 3

/-- The context block of `generate_answer`, assembled from the first three
matching documents only. -/
def build_context (docs : List DocView) : String :=
  (contextDocs docs).foldl
    (fun acc d =>
      acc ++ "\nConsent Form: " ++ d.filename ++ "\n"
          ++ "Patient: " ++ d.patient_name ++ "\n"
          ++ "Summary: " ++ d.summary ++ "\n"
          ++ "Items Consented To: "
          ++ (if d.consented_items.isEmpty then "None listed"
              else String.intercalate ", " d.consented_items) ++ "\n"
          ++ "Items Declined: "
          ++ (if d.declined_items.isEmpty then "None listed"
              else String.intercalate ", " d.declined_items) ++ "\n")
    ""

/-- Model of `generate_fallback_answer`: keyword heuristic used when the model call
raises.  The `for` loop returns on its first iteration whenever a keyword is
present, so only the first document is ever consulted. -/
def generate_fallback_answer (query : String) (docs : List DocView) : String :=
  let ql := pyLower query
  match docs with
  | [] =>
    "I found your consent form but couldn\x27t extract specific information. Please contact your healthcare provider for details."
  | d :: _ =>
    if substrOf "decline" ql then
      if d.declined_items.isEmpty then
        "Based on your consent form, you didn\x27t decline any items."
      else
        "Based on your consent form, you declined: " ++ String.intercalate ", " d.declined_items
    else if substrOf "consent" ql || substrOf "agree" ql then
      if d.consented_items.isEmpty then
        "Based on your consent form, no specific consent items were listed."
      else
        "Based on your consent form, you consented to: "
          ++ String.intercalate ", " d.consented_items
    else
      "I found your consent form but couldn\x27t extract specific information. Please contact your healthcare provider for details."

/-- Model of `generate_answer`: submit the patient-scoped context to the model oracle
`modelCall` (argument order: question, context block; the constant English
instruction wrapper of the prompt carries no data flow and is elided);
`none` = the call raised, answered by the keyword fallback. -/
def generate_answer (modelCall : String → String → Option String)
    (query : String) (docs : List DocView) : String :=
  if docs.isEmpty then "No relevant consent forms found for your query."
  else
    match modelCall query (build_context docs) with
    | some t => pyStrip t
    | none => generate_fallback_answer query docs

/-- Body of a `/query` response (for a 401 the error text is carried in
`answer`). -/
structure QueryResponse where
  status : Nat
  answer : String
  sources : List String
deriving DecidableEq

/-- The fixed no-forms-on-file reply of `/query`. -/
def noFormsMessage : String :=
  "I don\x27t have any consent forms on file for you. Please contact your healthcare provider."

/-- Body of `handle_query`, after `verify_session` has bound `patient_email`. -/
def handle_query (entity_index : List (String × EntityIndexEntry))
    (modelCall : String → String → Option String)
    (patient_email query : String) : QueryResponse :=
  let query := pyStrip query
  if query = "" then ⟨400, "No query provided", []⟩
  else
    let relevant_docs := search_patient_documents entity_index patient_email
    if relevant_docs.isEmpty then ⟨200, noFormsMessage, []⟩
    else
      ⟨200, generate_answer modelCall query relevant_docs,
       relevant_docs.map (fun d => d.filename)⟩

/-- Endpoint `POST /query`: `verify_session` composed with `handle_query`.  Returns the
response and the session table after the request. -/
def query_endpoint (entity_index : List (String × EntityIndexEntry))
    (modelCall : String → String → Option String)
    (sessions : List (String × SessionData)) (now : Nat)
    (header : Option String) (query : String) :
    QueryResponse × List (String × SessionData) :=
  match verify_session sessions now header with
  | .unauthorized s => (⟨401, "Unauthorized. Please log in.", []⟩, s)
  | .ok email s => (handle_query entity_index modelCall email query, s)

/-! ### Query service: the unauthenticated `/ask` path

The five patterns of `_extract_key_entity` are built from `\w+` runs, `\s+`
runs and literals whose character classes are pairwise disjoint, so Python
backtracking regex search over them is equivalent to deterministic
maximal-run matching tried at every start position, leftmost first — which is
what the matchers below implement. -/

/-- Match `\s+` greedily: at least one whitespace character, then the rest. -/
def matchSpaces1 (l : List Char) : Option (List Char) :=
  if (l.takeWhile isSpaceChar).isEmpty then none else some (l.dropWhile isSpaceChar)

/-- Match `(\w+)` greedily: the maximal non-empty word run and the rest. -/
def matchWord1 (l : List Char) : Option (List Char × List Char) :=
  let w := l.takeWhile isWordChar
  if w.isEmpty then none else some (w, l.dropWhile isWordChar)

/-- Match a literal and return the rest. -/
def matchLit (lit l : List Char) : Option (List Char) :=
  if startsWithList lit l then some (l.drop lit.length) else none

/-- Try `patient\s+(\w+)` at the current position. -/
def tryPatientX (l : List Char) : Option String :=
  (matchLit "patient".data l).bind fun r1 =>
  (matchSpaces1 r1).bind fun r2 =>
  (matchWord1 r2).map fun w => String.mk w.1

/-- Try `(\w+)\s+lit` at the current position (used for `declined`,
`consented` and `patient`). -/
def tryWordBefore (lit : List Char) (l : List Char) : Option String :=
  (matchWord1 l).bind fun w =>
  (matchSpaces1 w.2).bind fun r2 =>
  (matchLit lit r2).map fun _ => String.mk w.1

/-- Try `what\s+did\s+(\w+)` at the current position. -/
def tryWhatDidX (l : List Char) : Option String :=
  (matchLit "what".data l).bind fun r1 =>
  (matchSpaces1 r1).bind fun r2 =>
  (matchLit "did".data r2).bind fun r3 =>
  (matchSpaces1 r3).bind fun r4 =>
  (matchWord1 r4).map fun w => String.mk w.1

/-- Search as `re.search`: try the position matcher at every suffix, leftmost first. -/
def searchPos (tryAt : List Char → Option String) : List Char → Option String
  | [] => tryAt []
  | c :: rest =>
    match tryAt (c :: rest) with
    | some s => some s
    | none => searchPos tryAt rest

/-- Model of `_extract_key_entity`: the five patterns tried in order against the
lowercased question; the first pattern with a match anywhere wins. -/
def extract_key_entity (question : String) : Option String :=
  let q := (pyLower question).data
  (searchPos tryPatientX q).orElse fun _ =>
  (searchPos (tryWordBefore "declined".data) q).orElse fun _ =>
  (searchPos (tryWordBefore "consented".data) q).orElse fun _ =>
  (searchPos tryWhatDidX q).orElse fun _ =>
  searchPos (tryWordBefore "patient".data) q

/-- Firestore string order (UTF-8 byte order = code-point lexicographic
order), used by the `>= entity` / `<= entity + ""` range query. -/
def charListLe : List Char → List Char → Bool
  | [], _ => true
  | _ :: _, [] => false
  | a :: as, b :: bs =>
    if a.val < b.val then true
    else if b.val < a.val then false
    else charListLe as bs

/-- Firestore `<=` on strings. -/
def fsStrLe (a b : String) : Bool := charListLe a.data b.data

/-- Model of `_resolve_document_from_entity`: exact match on `patient_name`, then
array-membership of `entity.lower()` in `search_terms`, then the
prefix-range query on `patient_name`; first hit of the first strategy that
yields one. -/
def resolve_document_from_entity (entity_index : List (String × EntityIndexEntry))
    (entity : String) : Option EntityIndexEntry :=
  match entity_index.find? (fun p => p.2.patient_name == entity) with
  | some p => some p.2
  | none =>
    match entity_index.find? (fun p => p.2.search_terms.contains (pyLower entity)) with
    | some p => some p.2
    | none =>
      (entity_index.find? (fun p =>
        fsStrLe entity p.2.patient_name
          && fsStrLe p.2.patient_name (entity ++ "\uf8ff"))).map (fun p => p.2)

/-- Model of `_get_most_recent_document`: `limit(1)` over the collection stream — the
first stored entry, despite the name. -/
def get_most_recent_document (entity_index : List (String × EntityIndexEntry)) :
    Option EntityIndexEntry :=
  (entity_index.head?).map (fun p => p.2)

/-- Model of `_generate_contextual_answer`: keyword-only answer over one resolved
document. -/
def generate_contextual_answer (question : String) (d : EntityIndexEntry) : String :=
  let ql := pyLower question
  if substrOf "decline" ql then
    if d.declined_items.isEmpty then
      "Based on " ++ d.document_id ++ ", no items were declined."
    else
      "Based on " ++ d.document_id ++ ", the following items were declined: "
        ++ String.intercalate ", " d.declined_items
  else if substrOf "consent" ql || substrOf "agree" ql then
    if d.consented_items.isEmpty then
      "Based on " ++ d.document_id ++ ", no specific consent items were found."
    else
      "Based on " ++ d.document_id ++ ", the following items were consented to: "
        ++ String.intercalate ", " d.consented_items
  else
    "Based on " ++ d.document_id ++ ": " ++ d.summary

/-- Body of a `/ask` response. -/
structure AskResponse where
  status : Nat
  answer : String
  document_id : Option String
  entity : Option String
deriving DecidableEq

/-- Endpoint `POST /ask`: no session check; entity extraction, Firestore resolution,
keyword answer. -/
def ask_question (entity_index : List (String × EntityIndexEntry))
    (question : String) : AskResponse :=
  let question := pyStrip question
  if question = "" then ⟨400, "No question provided", none, none⟩
  else
    let key_entity := extract_key_entity question
    let document_data :=
      match key_entity with
      | some e => resolve_document_from_entity entity_index e
      | none => get_most_recent_document entity_index
    match document_data with
    | none => ⟨404, "No consent form found", none, key_entity⟩
    | some d =>
      ⟨200, generate_contextual_answer question d, some d.document_id, key_entity⟩

/-! ### Concrete fixture: Jane's ingested consent form -/

/-- A parsed model analysis for Jane's consent form (concrete instance used by
the `/ask` end-to-end check). -/
def janeAnalysis : Analysis where
  summary := "Consent form covering surgery for Jane."
  entities :=
    [("patient_name", "Jane"), ("patient_email", "jane@example.com"),
     ("date_of_birth", "N/A"), ("doctor_name", "Dr. Smith"),
     ("procedure", "Surgery"), ("date", "N/A")]
  consented_items := ["surgery"]
  declined_items := ["blood transfusion"]
  patient_id := "jane@example.com"

/-- The entity index holding exactly Jane's ingested record. -/
def janeIndex : List (String × EntityIndexEntry) :=
  [("jane_doc", mk_enhanced_analysis "jane_doc" janeAnalysis)]

/-! ### Supporting lemmas -/

theorem lookup_fsSet_self {α : Type} (coll : List (String × α)) (k : String) (v : α) :
    (fsSet coll k v).lookup k = some v := by
  induction coll with
  | nil => simp [fsSet, List.lookup]
  | cons h t ih =>
    by_cases hk : h.1 = k
    · simpa [fsSet, List.filter_cons, hk] using ih
    · have hk' : (h.1 != k) = true := by simpa using hk
      have hk'' : (k == h.1) = false := by
        simp only [beq_eq_false_iff_ne, ne_eq]
        exact fun he => hk he.symm
      simpa [fsSet, List.filter_cons, hk', List.lookup, hk''] using ih

theorem countKey_fsSet {α : Type} (coll : List (String × α)) (k : String) (v : α) :
    countKey (fsSet coll k v) k = 1 := by
  induction coll with
  | nil => simp [fsSet, countKey, List.filter]
  | cons h t ih =>
    by_cases hk : h.1 = k
    · rw [show fsSet (h :: t) k v = fsSet t k v by simp [fsSet, List.filter_cons, hk]]
      exact ih
    · have hk' : (h.1 != k) = true := by simp [hk]
      have hk'' : (h.1 == k) = false := by simp [hk]
      rw [show fsSet (h :: t) k v = h :: fsSet t k v by simp [fsSet, List.filter_cons, hk']]
      rw [show countKey (h :: fsSet t k v) k = countKey (fsSet t k v) k by
        simp [countKey, List.filter_cons, hk'']]
      exact ih

theorem lookup_eraseKey_none {α : Type} (S : List (String × α)) (tok : String) :
    (S.filter (fun p => p.1 != tok)).lookup tok = none := by
  induction S with
  | nil => rfl
  | cons h t ih =>
    by_cases hk : h.1 = tok
    · simpa [List.filter_cons, hk] using ih
    · have hk' : (h.1 != tok) = true := by simpa using hk
      have hk'' : (tok == h.1) = false := by
        simp only [beq_eq_false_iff_ne, ne_eq]
        exact fun he => hk he.symm
      simpa [List.filter_cons, hk', List.lookup, hk''] using ih

theorem lookup_none_of_no_key {α : Type} (S : List (String × α)) (k : String)
    (h : ∀ p ∈ S, p.1 ≠ k) : S.lookup k = none := by
  induction S with
  | nil => rfl
  | cons hd t ih =>
    have h1 : hd.1 ≠ k := h hd (by simp)
    have h1' : (k == hd.1) = false := by
      simp only [beq_eq_false_iff_ne, ne_eq]
      exact fun he => h1 he.symm
    simpa [List.lookup, h1'] using ih fun p hp => h p (by simp [hp])

theorem hash_password_inj {a b : String} (h : hash_password a = hash_password b) :
    a = b := by
  unfold hash_password at h
  have hd : ("sha256-" ++ a).data = ("sha256-" ++ b).data := by rw [h]
  simp only [String.data_append] at hd
  exact String.ext (List.append_cancel_left hd)

theorem hash_password_ne_empty (a : String) : hash_password a ≠ "" := by
  unfold hash_password
  intro h
  have := congrArg String.data h
  simp [String.data_append] at this

/-- Inversion of a successful registration: the normalized email and password
are non-empty, no account with that email pre-existed, and the new collection
is the old one (minus any entry under the fresh key) plus the new account. -/
theorem register_200_inv (patients : List (String × PatientAccount))
    (rid e p n d : String)
    (hreg : (register_patient patients rid e p n d).1 = 200) :
    pyLower (pyStrip e) ≠ "" ∧ pyStrip p ≠ "" ∧
    patients.find? (fun q => q.2.email == pyLower (pyStrip e)) = none ∧
    (register_patient patients rid e p n d).2
      = patients.filter (fun q => q.1 != rid)
        ++ [(rid, ⟨pyLower (pyStrip e), hash_password (pyStrip p),
              pyStrip n, pyStrip d, none⟩)] := by
  unfold register_patient at hreg ⊢
  by_cases h1 : pyLower (pyStrip e) = "" ∨ pyStrip p = ""
  · simp [h1] at hreg
  · push_neg at h1
    by_cases h2 : (patients.find? (fun q => q.2.email == pyLower (pyStrip e))).isSome
    · simp [h1.1, h1.2, h2] at hreg
    · refine ⟨h1.1, h1.2, ?_, ?_⟩
      · exact Option.not_isSome_iff_eq_none.mp h2
      · simp [h1.1, h1.2, h2, fsSet]

/-- After a successful registration, the email-keyed account query finds the
freshly created account. -/
theorem find_email_after_register (patients : List (String × PatientAccount))
    (rid e p n d : String)
    (hreg : (register_patient patients rid e p n d).1 = 200) :
    (register_patient patients rid e p n d).2.find?
        (fun q => q.2.email == pyLower (pyStrip e))
      = some (rid, ⟨pyLower (pyStrip e), hash_password (pyStrip p),
          pyStrip n, pyStrip d, none⟩) := by
  obtain ⟨-, -, hnone, heq⟩ := register_200_inv patients rid e p n d hreg
  rw [heq, List.find?_append]
  have hfilter : (patients.filter (fun q => q.1 != rid)).find?
      (fun q => q.2.email == pyLower (pyStrip e)) = none := by
    rw [List.find?_eq_none] at hnone ⊢
    exact fun x hx => hnone x (List.mem_of_mem_filter hx)
  simp [hfilter, List.find?]

/-- Looking up by email in an updated collection whose appended account carries
the email finds exactly that account, provided no original account carried
it. -/
theorem find_email_filtered_append (patients : List (String × PatientAccount))
    (rid el : String) (acct : PatientAccount)
    (hnone : patients.find? (fun q => q.2.email == el) = none)
    (hmail : acct.email = el) :
    ((patients.filter (fun q => q.1 != rid)) ++ [(rid, acct)]).find?
        (fun q => q.2.email == el) = some (rid, acct) := by
  rw [List.find?_append]
  have hfilter : (patients.filter (fun q => q.1 != rid)).find?
      (fun q => q.2.email == el) = none := by
    rw [List.find?_eq_none] at hnone ⊢
    exact fun x hx => hnone x (List.mem_of_mem_filter hx)
  simp [hfilter, List.find?, hmail]

theorem login_200_of_find (patients : List (String × PatientAccount))
    (sessions : List (String × SessionData)) (T : Nat) (tok e p k : String)
    (acct : PatientAccount)
    (he : pyLower (pyStrip e) ≠ "") (hp : pyStrip p ≠ "")
    (hfind : patients.find? (fun q => q.2.email == pyLower (pyStrip e)) = some (k, acct))
    (hhash : acct.password_hash = hash_password (pyStrip p)) :
    (login_patient patients sessions T tok e p).status = 200 ∧
    (login_patient patients sessions T tok e p).session_token = some tok := by
  unfold login_patient
  rw [if_neg (by simp [he, hp] : ¬(pyLower (pyStrip e) = "" ∨ pyStrip p = ""))]
  rw [hfind]
  dsimp only
  rw [if_neg (fun hc => hc hhash)]
  exact ⟨rfl, rfl⟩

theorem login_401_of_find (patients : List (String × PatientAccount))
    (sessions : List (String × SessionData)) (T : Nat) (tok e p k : String)
    (acct : PatientAccount)
    (he : pyLower (pyStrip e) ≠ "") (hp : pyStrip p ≠ "")
    (hfind : patients.find? (fun q => q.2.email == pyLower (pyStrip e)) = some (k, acct))
    (hhash : acct.password_hash ≠ hash_password (pyStrip p)) :
    (login_patient patients sessions T tok e p).status = 401 := by
  unfold login_patient
  rw [if_neg (by simp [he, hp] : ¬(pyLower (pyStrip e) = "" ∨ pyStrip p = ""))]
  rw [hfind]
  dsimp only
  rw [if_pos hhash]

/-- The central shape fact for the implicit upsert after a registration: the
swallowed account upsert leaves the collection as the registered one with the
account under the registration key still carrying the registered credential. -/
theorem swallow_after_register (patients : List (String × PatientAccount))
    (rid newId e p n d pn : String)
    (hreg : (register_patient patients rid e p n d).1 = 200) :
    ∃ acct : PatientAccount,
      create_patient_account_swallow (register_patient patients rid e p n d).2
          newId (pyLower (pyStrip e)) pn
        = (patients.filter (fun q => q.1 != rid)) ++ [(rid, acct)] ∧
      acct.email = pyLower (pyStrip e) ∧
      acct.password_hash = hash_password (pyStrip p) := by
  obtain ⟨he, hp, hnone, heq⟩ := register_200_inv patients rid e p n d hreg
  rw [heq]
  unfold create_patient_account_swallow create_patient_account
  rcases hft : (if pn != "N/A" then (pySplitWs pn).head?.map pyLower else some "patient") with
    _ | first <;> dsimp only
  · exact ⟨_, rfl, rfl, rfl⟩
  · rw [find_email_filtered_append patients rid (pyLower (pyStrip e)) _ hnone rfl]
    dsimp only
    rw [if_neg (hash_password_ne_empty (pyStrip p))]
    rw [if_neg (hash_password_ne_empty (pyStrip p))]
    refine ⟨⟨pyLower (pyStrip e), hash_password (pyStrip p), pn, pyStrip d, none⟩,
      ?_, rfl, rfl⟩
    rw [List.map_append]
    congr 1
    · have hid : ∀ x ∈ patients.filter (fun q => q.1 != rid),
          (if x.1 = rid then (rid,
              (⟨pyLower (pyStrip e), hash_password (pyStrip p), pn, pyStrip d, none⟩ :
                PatientAccount)) else x) = x := by
        intro x hx
        have hxr : x.1 ≠ rid := by simpa using List.of_mem_filter hx
        simp [hxr]
      calc (patients.filter (fun q => q.1 != rid)).map _
          = (patients.filter (fun q => q.1 != rid)).map id := List.map_congr_left hid
        _ = patients.filter (fun q => q.1 != rid) := List.map_id _
    · simp

/-- An implicit upsert that finds an account with a non-empty credential leaves
every account either untouched or updated with the credential preserved. -/
theorem upsert_preserves_credential (ps : List (String × PatientAccount))
    (nid em nm k : String) (acct : PatientAccount)
    (hfind : ps.find? (fun r => r.2.email == em) = some (k, acct))
    (hph : acct.password_hash ≠ "") :
    ∀ r ∈ create_patient_account_swallow ps nid em nm,
      r ∈ ps ∨ (r.1 = k ∧ r.2.password_hash = acct.password_hash) := by
  unfold create_patient_account_swallow create_patient_account
  rcases hft : (if nm != "N/A" then (pySplitWs nm).head?.map pyLower else some "patient") with
    _ | first <;> dsimp only
  · intro r hr
    exact .inl hr
  · rw [hfind]
    dsimp only
    rw [if_neg hph, if_neg hph]
    intro r hr
    rw [List.mem_map] at hr
    obtain ⟨x, hx, rfl⟩ := hr
    by_cases hxk : x.1 = k
    · right
      simp [hxk]
    · left
      simpa [hxk] using hx

/-! ### Claim theorems -/

/-- C9: for every triggering event whose object name does not end
(case-insensitively) in ".pdf", the ingestion entry point is a pure no-op:
no OCR call, no model call, no database write, no blob deletion, and the
persistent state is unchanged. -/
theorem C9_nonpdf_noop (st : IngestState) (fileName fullText : String)
    (modelOutcome : Option Analysis) (newAccountId : String)
    (h : isPdfName fileName = false) :
    process_consent_pdf st fileName fullText modelOutcome newAccountId
      = (st, ⟨false, false, 0, false⟩) := by
  simp [process_consent_pdf, h]

theorem C9_nonpdf_noop_witness :
    isPdfName "notes.txt" = false ∧
    process_consent_pdf ⟨[], [], []⟩ "notes.txt" "sometext" none "id1"
      = (⟨[], [], []⟩, ⟨false, false, 0, false⟩) :=
  ⟨by decide, C9_nonpdf_noop ⟨[], [], []⟩ "notes.txt" "sometext" none "id1" (by decide)⟩

/-- C3: for every full-text input, if the model call raises, the pipeline
substitutes exactly the fixed fallback payload (placeholder summary, all six
entity fields "N/A", the single placeholder consented item, no declined
items, patient_id "unknown"), stores it, leaves the accounts untouched
(fallback has no usable email) and still reaches the final OCR-blob cleanup
step. -/
theorem C3_model_failure_fallback (st : IngestState)
    (fileName fullText newAccountId : String)
    (h : isPdfName fileName = true) :
    ((process_consent_pdf st fileName fullText none newAccountId).1.consents.lookup
        (docId fileName) = some ⟨fileName, fallbackAnalysis, fullText⟩) ∧
    ((process_consent_pdf st fileName fullText none newAccountId).1.entity_index.lookup
        (docId fileName) = some (mk_enhanced_analysis (docId fileName) fallbackAnalysis)) ∧
    (process_consent_pdf st fileName fullText none newAccountId).1.patients = st.patients ∧
    (process_consent_pdf st fileName fullText none newAccountId).2.blobsDeleted = true ∧
    fallbackAnalysis.summary = "Consent form processed - AI analysis failed" ∧
    fallbackAnalysis.entities =
      [("patient_name", "N/A"), ("patient_email", "N/A"), ("date_of_birth", "N/A"),
       ("doctor_name", "N/A"), ("procedure", "N/A"), ("date", "N/A")] ∧
    fallbackAnalysis.consented_items = ["Analysis pending"] ∧
    fallbackAnalysis.declined_items = [] ∧
    fallbackAnalysis.patient_id = "unknown" := by
  have hmail : (pyLower ((fallbackAnalysis.entities.lookup "patient_email").getD "") != ""
      && pyLower ((fallbackAnalysis.entities.lookup "patient_email").getD "") != "n/a")
      = false := by decide
  refine ⟨?_, ?_, ?_, ?_, rfl, rfl, rfl, rfl, rfl⟩
  · simp [process_consent_pdf, h, lookup_fsSet_self]
  · simp [process_consent_pdf, h, lookup_fsSet_self]
  · simp [process_consent_pdf, h, hmail]
  · simp [process_consent_pdf, h]

theorem C3_model_failure_fallback_witness :
    isPdfName "form.pdf" = true ∧
    ((process_consent_pdf ⟨[], [], []⟩ "form.pdf" "ocr text" none "id1").1.consents.lookup
        (docId "form.pdf") = some ⟨"form.pdf", fallbackAnalysis, "ocr text"⟩) ∧
    (process_consent_pdf ⟨[], [], []⟩ "form.pdf" "ocr text" none "id1").2.blobsDeleted = true :=
  ⟨by decide,
   (C3_model_failure_fallback ⟨[], [], []⟩ "form.pdf" "ocr text" "id1" (by decide)).1,
   (C3_model_failure_fallback ⟨[], [], []⟩ "form.pdf" "ocr text" "id1" (by decide)).2.2.2.1⟩

/-- C8 counterexample: the document identifier is computed with
`file_name.replace(".pdf", "")`, which removes every occurrence of ".pdf",
not just a final extension: "a.pdf.pdf" is keyed under "a", not under the
extension-stripped "a.pdf". -/
theorem C8_counterexample :
    isPdfName "a.pdf.pdf" = true ∧
    docId "a.pdf.pdf" = "a" ∧
    ("a" : String) ≠ "a.pdf" ∧
    ((process_consent_pdf ⟨[], [], []⟩ "a.pdf.pdf" "t" none "id1").1.consents.lookup
        "a.pdf" = none) ∧
    ((process_consent_pdf ⟨[], [], []⟩ "a.pdf.pdf" "t" none "id1").1.consents.lookup
        "a" = some ⟨"a.pdf.pdf", fallbackAnalysis, "t"⟩) := by
  decide

/-- C8 (amended): the ConsentRecord and the EntityIndexEntry are both keyed by
the filename with every occurrence of ".pdf" removed (equal to the
extension-stripped name whenever ".pdf" occurs only as the final extension),
and re-ingesting a file with the same name overwrites both records under that
same identifier — last write wins, exactly one entry per key. -/
theorem C8_docid_overwrite (st : IngestState)
    (fileName ft1 ft2 newId1 newId2 : String) (a1 a2 : Analysis)
    (h : isPdfName fileName = true) :
    ((process_consent_pdf st fileName ft1 (some a1) newId1).1.consents.lookup
        (docId fileName) = some ⟨fileName, a1, ft1⟩) ∧
    ((process_consent_pdf st fileName ft1 (some a1) newId1).1.entity_index.lookup
        (docId fileName) = some (mk_enhanced_analysis (docId fileName) a1)) ∧
    (mk_enhanced_analysis (docId fileName) a1).document_id = docId fileName ∧
    ((process_consent_pdf (process_consent_pdf st fileName ft1 (some a1) newId1).1
        fileName ft2 (some a2) newId2).1.consents.lookup (docId fileName)
      = some ⟨fileName, a2, ft2⟩) ∧
    countKey ((process_consent_pdf (process_consent_pdf st fileName ft1 (some a1) newId1).1
        fileName ft2 (some a2) newId2).1.consents) (docId fileName) = 1 ∧
    ((process_consent_pdf (process_consent_pdf st fileName ft1 (some a1) newId1).1
        fileName ft2 (some a2) newId2).1.entity_index.lookup (docId fileName)
      = some (mk_enhanced_analysis (docId fileName) a2)) ∧
    countKey ((process_consent_pdf (process_consent_pdf st fileName ft1 (some a1) newId1).1
        fileName ft2 (some a2) newId2).1.entity_index) (docId fileName) = 1 := by
  refine ⟨?_, ?_, rfl, ?_, ?_, ?_, ?_⟩ <;>
    simp [process_consent_pdf, h, lookup_fsSet_self, countKey_fsSet]

/-- C5: entity extraction for `/ask` tries the five regex patterns in order on
the lowercased question (first match wins), and resolution tries exact
`patient_name` match, then array-membership of the lowercased term in
`search_terms`, then the prefix-range query, returning the first hit of the
first strategy that yields one.  Concretely, "What did Jane decline?" against
an index holding Jane's record (patient_name "Jane", declined_items
["blood transfusion"]) extracts "jane" via the `what did (\w+)` pattern and
`/ask` answers with "blood transfusion" and Jane's document_id. -/
theorem C5_ask_entity_resolution :
    extract_key_entity "What did Jane decline?" = some "jane" ∧
    (ask_question janeIndex "What did Jane decline?").status = 200 ∧
    (ask_question janeIndex "What did Jane decline?").document_id = some "jane_doc" ∧
    substrOf "blood transfusion" (ask_question janeIndex "What did Jane decline?").answer
      = true ∧
    (mk_enhanced_analysis "jane_doc" janeAnalysis).patient_name = "Jane" ∧
    (mk_enhanced_analysis "jane_doc" janeAnalysis).declined_items = ["blood transfusion"] ∧
    (∀ idx entity p, idx.find? (fun q => q.2.patient_name == entity) = some p →
        resolve_document_from_entity idx entity = some p.2) ∧
    (∀ idx entity p, idx.find? (fun q => q.2.patient_name == entity) = none →
        idx.find? (fun q => q.2.search_terms.contains (pyLower entity)) = some p →
        resolve_document_from_entity idx entity = some p.2) ∧
    (∀ idx entity p, idx.find? (fun q => q.2.patient_name == entity) = none →
        idx.find? (fun q => q.2.search_terms.contains (pyLower entity)) = none →
        idx.find? (fun q => fsStrLe entity q.2.patient_name
            && fsStrLe q.2.patient_name (entity ++ "\uf8ff")) = some p →
        resolve_document_from_entity idx entity = some p.2) ∧
    (∀ q r, searchPos tryPatientX (pyLower q).data = some r →
        extract_key_entity q = some r) ∧
    (∀ q r, searchPos tryPatientX (pyLower q).data = none →
        searchPos (tryWordBefore "declined".data) (pyLower q).data = some r →
        extract_key_entity q = some r) ∧
    (∀ q r, searchPos tryPatientX (pyLower q).data = none →
        searchPos (tryWordBefore "declined".data) (pyLower q).data = none →
        searchPos (tryWordBefore "consented".data) (pyLower q).data = none →
        searchPos tryWhatDidX (pyLower q).data = some r →
        extract_key_entity q = some r) := by
  refine ⟨by decide, by decide, by decide, by decide, by decide, by decide,
    ?_, ?_, ?_, ?_, ?_, ?_⟩
  · intro idx entity p h1
    simp only [resolve_document_from_entity, h1]
  · intro idx entity p h1 h2
    simp only [resolve_document_from_entity, h1, h2]
  · intro idx entity p h1 h2 h3
    simp only [resolve_document_from_entity, h1, h2, h3, Option.map_some']
  · intro q r h1
    simp [extract_key_entity, h1, Option.orElse]
  · intro q r h1 h2
    simp [extract_key_entity, h1, h2, Option.orElse]
  · intro q r h1 h2 h3 h4
    simp [extract_key_entity, h1, h2, h3, h4, Option.orElse]

theorem buildEntityData_fst (l : List (String × String)) :
    (buildEntityData l).1 = l.filter (fun kv => kv.2 != "" && kv.2 != "N/A") := by
  induction l with
  | nil => rfl
  | cons kv t ih =>
    obtain ⟨k, v⟩ := kv
    by_cases hc : (v != "" && v != "N/A") = true
    · simp only [buildEntityData, List.filter_cons, hc, if_true, ih]
    · simp only [buildEntityData, List.filter_cons, hc, if_false, ih,
        Bool.false_eq_true]

theorem buildEntityData_snd (l : List (String × String)) :
    (buildEntityData l).2 =
      ((l.filter (fun kv => kv.2 != "" && kv.2 != "N/A")).map
        (fun kv => [kv.1 ++ ":" ++ kv.2, pyLower kv.2])).flatten := by
  induction l with
  | nil => rfl
  | cons kv t ih =>
    obtain ⟨k, v⟩ := kv
    by_cases hc : (v != "" && v != "N/A") = true
    · simp only [buildEntityData, List.filter_cons, hc, if_true, List.map_cons,
        List.flatten, ih]
      rfl
    · simp only [buildEntityData, List.filter_cons, hc, if_false, ih,
        Bool.false_eq_true]

/-- C7: the entity mapping of a stored EntityIndexEntry holds exactly the
extracted entity fields whose value is non-empty and not "N/A"; each such
field contributes the two search terms "field:value" and the lowercased
value, in loop order; the stored patient_email is the lowercased extracted
email (literally "N/A" when the field is absent or itself "N/A"); all other
entity values keep their extracted case (they appear verbatim). -/
theorem C7_entity_index_construction (document_id : String) (a : Analysis) :
    ((mk_enhanced_analysis document_id a).entities
        = a.entities.filter (fun kv => kv.2 != "" && kv.2 != "N/A")) ∧
    (∀ k v, (k, v) ∈ (mk_enhanced_analysis document_id a).entities ↔
        ((k, v) ∈ a.entities ∧ v ≠ "" ∧ v ≠ "N/A")) ∧
    ((mk_enhanced_analysis document_id a).search_terms
        = ((a.entities.filter (fun kv => kv.2 != "" && kv.2 != "N/A")).map
            (fun kv => [kv.1 ++ ":" ++ kv.2, pyLower kv.2])).flatten) ∧
    (a.entities.lookup "patient_email" = none →
        (mk_enhanced_analysis document_id a).patient_email = "N/A") ∧
    (∀ v, a.entities.lookup "patient_email" = some v →
        (mk_enhanced_analysis document_id a).patient_email
          = if v = "N/A" then "N/A" else pyLower v) := by
  refine ⟨buildEntityData_fst a.entities, ?_, buildEntityData_snd a.entities, ?_, ?_⟩
  · intro k v
    rw [show (mk_enhanced_analysis document_id a).entities = (buildEntityData a.entities).1
        from rfl, buildEntityData_fst a.entities, List.mem_filter]
    simp
  · intro hnone
    simp [mk_enhanced_analysis, hnone]
  · intro v hv
    by_cases hva : v = "N/A"
    · simp [mk_enhanced_analysis, hv, hva]
    · have : (v != "N/A") = true := by simp [hva]
      simp [mk_enhanced_analysis, hv, this, hva]

theorem mem_search_patient_documents (idx : List (String × EntityIndexEntry))
    (e : String) (d : DocView) :
    d ∈ search_patient_documents idx e ↔
      ∃ p, p ∈ idx ∧ p.2.patient_email = e ∧ d = docView p.1 p.2 := by
  simp only [search_patient_documents, List.mem_map, List.mem_filter, beq_iff_eq]
  constructor
  · rintro ⟨p, ⟨hpi, hpe⟩, rfl⟩
    exact ⟨p, hpi, hpe, rfl⟩
  · rintro ⟨p, hpi, hpe, rfl⟩
    exact ⟨p, ⟨hpi, hpe⟩, rfl⟩

/-- C1: patient data isolation of the authenticated `/query` endpoint.  A
request with a valid, unexpired session token is processed under the
session-bound email; every document the search returns stems from an
entity-index entry whose stored patient_email equals that email exactly; the
sources list is exactly those documents' filenames; the model context is
assembled from a sub-list of them; an entry of a different patient can
contribute neither its document_id to the sources nor its summary to the
context (given the two patients' documents are disjoint); and when no entry
carries the session email the response is the fixed no-forms message with an
empty sources list. -/
theorem C1_query_patient_isolation (idx : List (String × EntityIndexEntry))
    (modelCall : String → String → Option String)
    (sessions : List (String × SessionData)) (now : Nat) (tok : String)
    (sd : SessionData) (q : String)
    (htok : tok ≠ "") (hl : sessions.lookup tok = some sd)
    (hexp : ¬ now > sd.expires) (hq : pyStrip q ≠ "") :
    (query_endpoint idx modelCall sessions now (some tok) q
        = (handle_query idx modelCall sd.email q, sessions)) ∧
    (∀ d ∈ search_patient_documents idx sd.email,
        ∃ p, p ∈ idx ∧ p.2.patient_email = sd.email ∧ d = docView p.1 p.2) ∧
    (search_patient_documents idx sd.email ≠ [] →
        (handle_query idx modelCall sd.email q).sources
          = (search_patient_documents idx sd.email).map (fun d => d.filename)) ∧
    (∀ d ∈ contextDocs (search_patient_documents idx sd.email),
        d ∈ search_patient_documents idx sd.email) ∧
    (∀ p ∈ idx, p.2.patient_email ≠ sd.email →
        (∀ p' ∈ idx, p'.2.patient_email = sd.email →
            p'.2.document_id ≠ p.2.document_id) →
        p.2.document_id ∉ (handle_query idx modelCall sd.email q).sources) ∧
    (∀ p ∈ idx, p.2.patient_email ≠ sd.email →
        (∀ p' ∈ idx, p'.2.patient_email = sd.email → p'.2.summary ≠ p.2.summary) →
        ∀ d ∈ contextDocs (search_patient_documents idx sd.email),
          d.summary ≠ p.2.summary) ∧
    ((∀ p ∈ idx, p.2.patient_email ≠ sd.email) →
        handle_query idx modelCall sd.email q = ⟨200, noFormsMessage, []⟩) := by
  refine ⟨?_, ?_, ?_, ?_, ?_, ?_, ?_⟩
  · simp [query_endpoint, verify_session, htok, hl, hexp]
  · intro d hd
    exact (mem_search_patient_documents idx sd.email d).mp hd
  · intro hne
    rcases hrel : search_patient_documents idx sd.email with _ | ⟨d0, rest⟩
    · exact absurd hrel hne
    · simp [handle_query, hq, hrel]
  · intro d hd
    exact List.take_subset 3 _ hd
  · intro p hp hpe hdisj
    rcases hrel : search_patient_documents idx sd.email with _ | ⟨d0, rest⟩
    · simp [handle_query, hq, hrel]
    · simp only [handle_query, hq, if_neg hq, hrel, List.isEmpty_cons, if_false,
        Bool.false_eq_true]
      intro hmem
      rw [← hrel] at hmem
      rw [List.mem_map] at hmem
      obtain ⟨d, hd, hdf⟩ := hmem
      obtain ⟨p', hp', hpe', rfl⟩ := (mem_search_patient_documents idx sd.email d).mp hd
      exact hdisj p' hp' hpe' (by
        have : p'.2.document_id = p.2.document_id := by simpa [docView] using hdf
        exact this)
  · intro p hp hpe hdisj d hd
    obtain ⟨p', hp', hpe', rfl⟩ := (mem_search_patient_documents idx sd.email d).mp
      (List.take_subset 3 _ hd)
    simpa [docView] using hdisj p' hp' hpe'
  · intro hall
    have hrel : search_patient_documents idx sd.email = [] := by
      unfold search_patient_documents
      rw [List.map_eq_nil_iff, List.filter_eq_nil_iff]
      intro p hp
      simpa using hall p hp
    simp [handle_query, hq, hrel]

theorem C1_query_patient_isolation_witness :
    query_endpoint
        [("docA", mk_enhanced_analysis "docA" janeAnalysis)]
        (fun _ _ => none)
        [("tk", ⟨"jane@example.com", "Jane", 100⟩)] 50 (some "tk") "What did I decline?"
      = (handle_query [("docA", mk_enhanced_analysis "docA" janeAnalysis)]
          (fun _ _ => none) "jane@example.com" "What did I decline?",
         [("tk", ⟨"jane@example.com", "Jane", 100⟩)]) :=
  (C1_query_patient_isolation
    [("docA", mk_enhanced_analysis "docA" janeAnalysis)]
    (fun _ _ => none)
    [("tk", ⟨"jane@example.com", "Jane", 100⟩)] 50 "tk"
    ⟨"jane@example.com", "Jane", 100⟩ "What did I decline?"
    (by decide) (by decide) (by decide) (by decide)).1

/-- C2: credential preservation across the ingestion account upsert.  After a
successful self-registration of (e, p), running the ingestion worker's
implicit account upsert for the same (lowercased) email leaves every account
carrying that email with the registered credential; a subsequent login with p
still succeeds and yields a token; at-most-one-account-per-email is
preserved; and, in general, an upsert that finds an account with a non-empty
stored credential never changes that credential. -/
theorem C2_credential_preservation (patients : List (String × PatientAccount))
    (rid newId e p n d pn : String)
    (sessions : List (String × SessionData)) (T : Nat) (tok : String)
    (hreg : (register_patient patients rid e p n d).1 = 200) :
    ∃ P2, P2 = create_patient_account_swallow (register_patient patients rid e p n d).2
        newId (pyLower (pyStrip e)) pn ∧
      (∀ r ∈ P2, r.2.email = pyLower (pyStrip e) →
          r.2.password_hash = hash_password (pyStrip p)) ∧
      (login_patient P2 sessions T tok e p).status = 200 ∧
      (login_patient P2 sessions T tok e p).session_token = some tok ∧
      (List.Pairwise (fun a b => a.2.email ≠ b.2.email) patients →
          List.Pairwise (fun a b => a.2.email ≠ b.2.email) P2) ∧
      (∀ (ps : List (String × PatientAccount)) (nid em nm k : String)
          (acct : PatientAccount),
          ps.find? (fun r => r.2.email == em) = some (k, acct) →
          acct.password_hash ≠ "" →
          ∀ r ∈ create_patient_account_swallow ps nid em nm,
            r ∈ ps ∨ (r.1 = k ∧ r.2.password_hash = acct.password_hash)) := by
  obtain ⟨he, hp, hnone, -⟩ := register_200_inv patients rid e p n d hreg
  obtain ⟨acct, hP2, hmail, hhash⟩ := swallow_after_register patients rid newId e p n d pn hreg
  have hfound : (create_patient_account_swallow (register_patient patients rid e p n d).2
      newId (pyLower (pyStrip e)) pn).find? (fun q => q.2.email == pyLower (pyStrip e))
      = some (rid, acct) := by
    rw [hP2]
    exact find_email_filtered_append patients rid (pyLower (pyStrip e)) acct hnone hmail
  refine ⟨_, rfl, ?_, (login_200_of_find _ sessions T tok e p rid acct he hp hfound hhash).1,
    (login_200_of_find _ sessions T tok e p rid acct he hp hfound hhash).2, ?_, ?_⟩
  · intro r hr hre
    rw [hP2] at hr
    rcases List.mem_append.mp hr with hr | hr
    · exfalso
      have hrp : r ∈ patients := List.mem_of_mem_filter hr
      have := List.find?_eq_none.mp hnone r hrp
      simp [hre] at this
    · have : r = (rid, acct) := by simpa using hr
      rw [this]
      exact hhash
  · intro hpw
    rw [hP2, List.pairwise_append]
    refine ⟨hpw.sublist (List.filter_sublist _), by simp, ?_⟩
    intro a ha b hb
    have hb' : b = (rid, acct) := by simpa using hb
    have hap : a ∈ patients := List.mem_of_mem_filter ha
    have hne := List.find?_eq_none.mp hnone a hap
    rw [hb']
    intro hcontra
    rw [hmail] at hcontra
    simp [hcontra] at hne
  · exact fun ps nid em nm k acct0 hfind hph =>
      upsert_preserves_credential ps nid em nm k acct0 hfind hph

theorem C2_credential_preservation_witness :
    (register_patient [] "r1" "alice@x.com" "secret1" "Alice" "1990-01-01").1 = 200 ∧
    ∃ P2, P2 = create_patient_account_swallow
        (register_patient [] "r1" "alice@x.com" "secret1" "Alice" "1990-01-01").2
        "n1" (pyLower (pyStrip "alice@x.com")) "Alice Smith" ∧
      (∀ r ∈ P2, r.2.email = pyLower (pyStrip "alice@x.com") →
          r.2.password_hash = hash_password (pyStrip "secret1")) ∧
      (login_patient P2 [] 0 "tk" "alice@x.com" "secret1").status = 200 ∧
      (login_patient P2 [] 0 "tk" "alice@x.com" "secret1").session_token = some "tk" ∧
      (List.Pairwise (fun a b => a.2.email ≠ b.2.email)
          ([] : List (String × PatientAccount)) →
          List.Pairwise (fun a b => a.2.email ≠ b.2.email) P2) ∧
      (∀ (ps : List (String × PatientAccount)) (nid em nm k : String)
          (acct : PatientAccount),
          ps.find? (fun r => r.2.email == em) = some (k, acct) →
          acct.password_hash ≠ "" →
          ∀ r ∈ create_patient_account_swallow ps nid em nm,
            r ∈ ps ∨ (r.1 = k ∧ r.2.password_hash = acct.password_hash)) :=
  ⟨by decide,
   C2_credential_preservation [] "r1" "n1" "alice@x.com" "secret1" "Alice" "1990-01-01"
     "Alice Smith" [] 0 "tk" (by decide)⟩

/-- C6 counterexample: both `/register` and `/login` strip the supplied
password before use, so a login with the password " secret1 " — which differs
from the registered password "secret1" — succeeds with 200 rather than
failing with 401, refuting the claim as stated. -/
theorem C6_counterexample :
    (register_patient [] "id1" "a@b.c" "secret1" "" "").1 = 200 ∧
    ((" secret1 " : String) ≠ "secret1") ∧
    (login_patient (register_patient [] "id1" "a@b.c" "secret1" "" "").2 [] 0 "tok"
        "a@b.c" " secret1 ").status = 200 := by
  decide

/-- C6 (amended): for every email e and password p whose stripped forms are
non-empty (email lowercased) and with no existing account for e, registering
(e, p) succeeds and a subsequent login with (e, p) succeeds and yields a
session token; a login with p' whose stripped form is non-empty and differs
from the stripped p fails with 401; registering e again fails with 409; and
registering or logging in with an empty (after stripping) email or password
fails with 400. -/
theorem C6_register_login_contract (patients : List (String × PatientAccount))
    (rid rid2 e p p' p2 n d n2 d2 : String)
    (sessions : List (String × SessionData)) (T : Nat) (tok : String)
    (he : pyLower (pyStrip e) ≠ "") (hp : pyStrip p ≠ "")
    (hnone : patients.find? (fun q => q.2.email == pyLower (pyStrip e)) = none)
    (hp' : pyStrip p' ≠ "") (hne : pyStrip p' ≠ pyStrip p)
    (hp2 : pyStrip p2 ≠ "") :
    (register_patient patients rid e p n d).1 = 200 ∧
    (login_patient (register_patient patients rid e p n d).2 sessions T tok e p).status
      = 200 ∧
    (login_patient (register_patient patients rid e p n d).2 sessions T tok e p).session_token
      = some tok ∧
    (login_patient (register_patient patients rid e p n d).2 sessions T tok e p').status
      = 401 ∧
    (register_patient (register_patient patients rid e p n d).2 rid2 e p2 n2 d2).1 = 409 ∧
    (∀ e0, pyLower (pyStrip e0) = "" →
        (register_patient patients rid e0 p n d).1 = 400) ∧
    (∀ p0, pyStrip p0 = "" →
        (register_patient patients rid e p0 n d).1 = 400) ∧
    (∀ e0, pyLower (pyStrip e0) = "" →
        (login_patient (register_patient patients rid e p n d).2 sessions T tok e0 p).status
          = 400) ∧
    (∀ p0, pyStrip p0 = "" →
        (login_patient (register_patient patients rid e p n d).2 sessions T tok e p0).status
          = 400) := by
  have hreg : (register_patient patients rid e p n d).1 = 200 := by
    simp [register_patient, he, hp, hnone]
  have hfind := find_email_after_register patients rid e p n d hreg
  refine ⟨hreg,
    (login_200_of_find _ sessions T tok e p rid _ he hp hfind rfl).1,
    (login_200_of_find _ sessions T tok e p rid _ he hp hfind rfl).2,
    login_401_of_find _ sessions T tok e p' rid _ he hp' hfind ?_,
    ?_, ?_, ?_, ?_, ?_⟩
  · intro hcontra
    exact hne (hash_password_inj hcontra).symm
  · have hsome : ((register_patient patients rid e p n d).2.find?
        (fun q => q.2.email == pyLower (pyStrip e))).isSome = true := by
      rw [hfind]
      rfl
    have h409 : ∀ ps : List (String × PatientAccount),
        (ps.find? (fun q => q.2.email == pyLower (pyStrip e))).isSome = true →
        (register_patient ps rid2 e p2 n2 d2).1 = 409 := by
      intro ps hsome2
      simp [register_patient, he, hp2, hsome2]
    exact h409 _ hsome
  · intro e0 h0
    simp [register_patient, h0]
  · intro p0 h0
    simp [register_patient, h0]
  · intro e0 h0
    simp [login_patient, h0]
  · intro p0 h0
    simp [login_patient, h0]

theorem C6_register_login_contract_witness :
    (register_patient [] "r1" "a@b.c" "secret1" "" "").1 = 200 ∧
    (login_patient (register_patient [] "r1" "a@b.c" "secret1" "" "").2 [] 0 "tk"
        "a@b.c" "secret1").status = 200 ∧
    (login_patient (register_patient [] "r1" "a@b.c" "secret1" "" "").2 [] 0 "tk"
        "a@b.c" "secret1").session_token = some "tk" ∧
    (login_patient (register_patient [] "r1" "a@b.c" "secret1" "" "").2 [] 0 "tk"
        "a@b.c" "secret2").status = 401 ∧
    (register_patient (register_patient [] "r1" "a@b.c" "secret1" "" "").2 "r2"
        "a@b.c" "x" "" "").1 = 409 ∧
    (∀ e0, pyLower (pyStrip e0) = "" →
        (register_patient [] "r1" e0 "secret1" "" "").1 = 400) ∧
    (∀ p0, pyStrip p0 = "" →
        (register_patient [] "r1" "a@b.c" p0 "" "").1 = 400) ∧
    (∀ e0, pyLower (pyStrip e0) = "" →
        (login_patient (register_patient [] "r1" "a@b.c" "secret1" "" "").2 [] 0 "tk"
            e0 "secret1").status = 400) ∧
    (∀ p0, pyStrip p0 = "" →
        (login_patient (register_patient [] "r1" "a@b.c" "secret1" "" "").2 [] 0 "tk"
            "a@b.c" p0).status = 400) :=
  C6_register_login_contract [] "r1" "r2" "a@b.c" "secret1" "secret2" "x" "" "" "" ""
    [] 0 "tk" (by decide) (by decide) (by decide) (by decide) (by decide) (by decide)

/-- C4: a successful login at instant T stores a session expiring at
T + 8 hours; any session-protected request strictly after that instant is
rejected with 401 and the failed check removes the entry from the session
table; a request with a missing or unknown token is likewise rejected
with 401. -/
theorem C4_session_expiry (patients : List (String × PatientAccount))
    (sessions : List (String × SessionData)) (T now : Nat)
    (tok email password : String)
    (htok : tok ≠ "")
    (hst : (login_patient patients sessions T tok email password).status = 200)
    (hnow : now > T + eightHours) :
    ∃ S sd, S = (login_patient patients sessions T tok email password).sessions ∧
      S.lookup tok = some sd ∧ sd.expires = T + eightHours ∧
      verify_session S now (some tok) = .unauthorized (S.filter (fun p => p.1 != tok)) ∧
      (S.filter (fun p => p.1 != tok)).lookup tok = none ∧
      verify_session S now none = .unauthorized S ∧
      (∀ t', t' ≠ "" → S.lookup t' = none →
        verify_session S now (some t') = .unauthorized S) := by
  unfold login_patient at hst ⊢
  by_cases h1 : pyLower (pyStrip email) = "" ∨ pyStrip password = "" <;>
    simp only [h1, if_true, if_false] at hst ⊢
  · simp at hst
  · rcases hfind : patients.find? (fun p => p.2.email == pyLower (pyStrip email)) with
      _ | ⟨k, acct⟩ <;> rw [hfind] at hst ⊢ <;> dsimp only at hst ⊢
    · simp at hst
    · by_cases h2 : acct.password_hash = hash_password (pyStrip password)
      · rw [if_neg (fun hc => hc h2)]
        refine ⟨_, _, rfl, lookup_fsSet_self _ _ _, rfl, ?_, lookup_eraseKey_none _ _, rfl, ?_⟩
        · simp [verify_session, htok, lookup_fsSet_self, hnow]
        · intro t' ht' hnone
          simp [verify_session, ht', hnone]
      · rw [if_pos h2] at hst
        simp at hst

theorem C4_session_expiry_witness :
    ("tk" : String) ≠ "" ∧
    (login_patient [("id1", ⟨"a@b.c", hash_password "pw", "A", "", none⟩)] [] 0 "tk"
        "a@b.c" "pw").status = 200 ∧
    (28801 > 0 + eightHours) ∧
    ∃ S sd, S = (login_patient [("id1", ⟨"a@b.c", hash_password "pw", "A", "", none⟩)]
        [] 0 "tk" "a@b.c" "pw").sessions ∧
      S.lookup "tk" = some sd ∧ sd.expires = 0 + eightHours ∧
      verify_session S 28801 (some "tk") = .unauthorized (S.filter (fun p => p.1 != "tk")) ∧
      (S.filter (fun p => p.1 != "tk")).lookup "tk" = none ∧
      verify_session S 28801 none = .unauthorized S ∧
      (∀ t', t' ≠ "" → S.lookup t' = none →
        verify_session S 28801 (some t') = .unauthorized S) :=
  ⟨by decide, by decide, by decide,
   C4_session_expiry [("id1", ⟨"a@b.c", hash_password "pw", "A", "", none⟩)] [] 0 28801
     "tk" "a@b.c" "pw" (by decide) (by decide) (by decide)⟩

/-- C10: session lookup on protected endpoints uses the entire Authorization
header value verbatim as the key into the session table: for a valid,
unexpired token t (tokens are URL-safe and contain no space), a request whose
header value is exactly t is accepted, while a header value of "Bearer "
followed by t is rejected with 401. -/
theorem C10_verbatim_auth_header (S : List (String × SessionData)) (now : Nat)
    (t : String) (sd : SessionData)
    (ht : t ≠ "") (hl : S.lookup t = some sd) (hexp : ¬ now > sd.expires)
    (hfree : ∀ p ∈ S, (p.1.data.all fun c => c != ' ') = true) :
    verify_session S now (some t) = .ok sd.email S ∧
    verify_session S now (some ("Bearer " ++ t)) = .unauthorized S := by
  constructor
  · simp [verify_session, ht, hl, hexp]
  · have hne : ("Bearer " ++ t) ≠ "" := by
      intro h
      have := congrArg String.data h
      simp [String.data_append] at this
    have hnokey : S.lookup ("Bearer " ++ t) = none := by
      refine lookup_none_of_no_key S _ fun p hp heq => ?_
      have hall := hfree p hp
      rw [heq] at hall
      have hsp : (' ' : Char) ∈ ("Bearer " ++ t).data := by
        rw [String.data_append]
        exact List.mem_append_left _ (by decide)
      rw [List.all_eq_true] at hall
      simpa using hall ' ' hsp
    simp [verify_session, hne, hnokey]

theorem C10_verbatim_auth_header_witness :
    verify_session [("tk", ⟨"a@b.c", "A", 100⟩)] 50 (some "tk")
      = .ok "a@b.c" [("tk", ⟨"a@b.c", "A", 100⟩)] ∧
    verify_session [("tk", ⟨"a@b.c", "A", 100⟩)] 50 (some ("Bearer " ++ "tk"))
      = .unauthorized [("tk", ⟨"a@b.c", "A", 100⟩)] :=
  C10_verbatim_auth_header [("tk", ⟨"a@b.c", "A", 100⟩)] 50 "tk" ⟨"a@b.c", "A", 100⟩
    (by decide) (by decide) (by decide) (by decide)

theorem C8_docid_overwrite_witness :
    isPdfName "report.pdf" = true ∧
    docId "report.pdf" = "report" ∧
    ((process_consent_pdf (process_consent_pdf ⟨[], [], []⟩ "report.pdf" "t1"
        (some fallbackAnalysis) "i1").1 "report.pdf" "t2" (some fallbackAnalysis) "i2").1.consents.lookup
      (docId "report.pdf") = some ⟨"report.pdf", fallbackAnalysis, "t2"⟩) :=
  ⟨by decide, by decide,
   (C8_docid_overwrite ⟨[], [], []⟩ "report.pdf" "t1" "t2" "i1" "i2"
      fallbackAnalysis fallbackAnalysis (by decide)).2.2.2.1⟩

end ConsentMgmt
